import Mathlib

/-!
Shallow embedding of `snapboard/models.py` (the data/permission core of the
snapboard discussion board) and proofs about its behaviour.

Modelling conventions:
* Database rows become Lean structures; a Django queryset over a table becomes
  an explicit `List` of rows passed to the function that queries it.
* `DateTimeField` values become `Nat` timestamps (only their ordering matters).
* Nullable columns and nullable Python references become `Option`.
* Python code that can raise is embedded as `Except PyExn _`; an uncaught
  exception aborts the operation before `save()`, so the persisted state is
  the input state (which matches returning `.error`).
* Django's `qs[0]` on an empty queryset raises `IndexError` (not
  `Model.DoesNotExist`); both exception kinds are represented so that
  `except DoesNotExist` clauses can be embedded faithfully, dead or not.
-/

namespace Snapboard

/-- Python exceptions that the embedded code can raise or catch. -/
inductive PyExn where
  | indexError
  | doesNotExist
  | attributeError
deriving Repr, DecidableEq

/-- Permission level constants from `models.py` (`NOBODY = 0`, `ALL = 1`,
`USERS = 2`, `CUSTOM = 3`). -/
def NOBODY : Nat := 0

/-- Constant `ALL = 1`. -/
def ALL : Nat := 1

/-- Constant `USERS = 2`. -/
def USERS : Nat := 2

/-- Constant `CUSTOM = 3`. -/
def CUSTOM : Nat := 3

/-- A `django.contrib.auth.models.User` as consumed by the embedded code:
primary key, identity strings, and the three flags the permission and
counting code reads (`is_authenticated()` is a method in this Django version;
we embed its result). -/
structure User where
  pk : Nat
  username : String
  email : String
  is_authenticated : Bool
  is_superuser : Bool
  is_staff : Bool
deriving Repr, DecidableEq

/-- A snapboard `Group` row: its name and the two many-to-many relations,
each embedded as the list of related user primary keys. -/
structure Group where
  name : String
  users : List Nat
  admins : List Nat
deriving Repr, DecidableEq

/-- Embeds `Group.has_user`: `self.users.filter(pk=user.pk).count() != 0`. -/
def Group.has_user (g : Group) (user : User) : Bool :=
  ((g.users.filter (fun pk => pk = user.pk)).length ≠ 0 : Bool)

/-- Embeds `Group.has_admin`: `self.admins.filter(pk=user.pk).count() != 0`. -/
def Group.has_admin (g : Group) (user : User) : Bool :=
  ((g.admins.filter (fun pk => pk = user.pk)).length ≠ 0 : Bool)

/-- The fields of the `previous` post row that `Post.save` dereferences
(`self.previous.odate`). Kept as a separate structure so that `Post` need
not be recursive. -/
structure PostRef where
  odate : Option Nat
deriving Repr, DecidableEq

/-- A snapboard `Post` row. `id` is `none` before the first `save()`
(Django assigns it on insert); `user` is the dereferenced author foreign key
(`blank=True, default=None`, so it can be absent); `revision` and `previous`
are the self-referencing foreign keys (`revision` held by id, `previous` by
the dereferenced fields `save` reads). Columns not read by the embedded
code (`text`, `ip`, `freespeech`) are omitted. -/
structure Post where
  id : Option Nat
  user : Option User
  thread : Nat
  date : Nat
  odate : Option Nat
  revision : Option Nat
  previous : Option PostRef
  censor : Bool
deriving Repr, DecidableEq

/-- A snapboard `Thread` row: its id, owning category id, `private` flag
(named `priv` because `private` is a Lean keyword) and the five denormalized
aggregate columns. Presentation columns (`subject`, `slug`, `closed`,
stickies) are omitted. -/
structure Thread where
  id : Nat
  category : Nat
  priv : Bool
  post_count : Nat
  starter : String
  starter_email : String
  last_poster : String
  last_poster_email : String
  last_update : Option Nat
deriving Repr, DecidableEq

/-- A snapboard `Category` row: the `post` permission configuration and the
two denormalized columns. The `view`/`read`/`new_thread` permission columns
are structurally identical to `post` and are omitted along with `label` and
`slug`. -/
structure Category where
  post_perms : Nat
  post_group : Option Group
  thread_count : Nat
  last_post : Option Post
deriving Repr, DecidableEq

/-- Embeds `Category.can_post`. The source initialises `flag = False`, then:
`if self.post_perms == USERS: flag = user.is_authenticated()`,
`elif self.post_perms == CUSTOM: flag = user.is_superuser or
(user.is_authenticated() and self.post_group.has_user(user))`.
Python's `or`/`and` short-circuit, so `self.post_group` (a nullable foreign
key) is only dereferenced when the actor is an authenticated non-superuser;
a null group then raises `AttributeError`. -/
def Category.can_post (c : Category) (user : User) : Except PyExn Bool :=
  if c.post_perms = USERS then
    .ok user.is_authenticated
  else if c.post_perms = CUSTOM then
    if user.is_superuser then .ok true
    else if user.is_authenticated then
      match c.post_group with
      | none => .error .attributeError
      | some g => .ok (g.has_user user)
    else .ok false
  else .ok false

/-- Scan for the earliest-dated post, starting from candidate `q`.
Ties keep the earlier-listed row, matching a stable sort. -/
def minFrom (q : Post) : List Post → Post
  | [] => q
  | p :: ps => minFrom (if p.date < q.date then p else q) ps

/-- Scan for the latest-dated post, starting from candidate `q`.
Ties keep the earlier-listed row, matching a stable sort. -/
def maxFrom (q : Post) : List Post → Post
  | [] => q
  | p :: ps => maxFrom (if p.date > q.date then p else q) ps

/-- The head of a queryset ordered by ascending `date`
(`order_by("date")[0]`): the earliest post, `none` on an empty queryset. -/
def minByDate? (posts : List Post) : Option Post :=
  match posts with
  | [] => none
  | a :: l => some (minFrom a l)

/-- The head of a queryset ordered by descending `date`
(`order_by("-date")[0]`): the latest post, `none` on an empty queryset. -/
def maxByDate? (posts : List Post) : Option Post :=
  match posts with
  | [] => none
  | a :: l => some (maxFrom a l)

/-- Indexing `qs[0]` on a queryset whose head is `res`: Django raises `IndexError`
when the queryset is empty. -/
def qsIndexZero (res : Option Post) : Except PyExn Post :=
  match res with
  | none => .error .indexError
  | some p => .ok p

/-- Embeds `Thread.get_first_post`: `try: return self.post_set.order_by("date")[0]
except self.post_set.model.DoesNotExist: return None`. The `except` clause
only catches `DoesNotExist`; the `IndexError` raised by `[0]` on an empty
thread propagates. -/
def Thread.get_first_post (posts : List Post) : Except PyExn (Option Post) :=
  match qsIndexZero (minByDate? posts) with
  | .ok p => .ok (some p)
  | .error .doesNotExist => .ok none
  | .error e => .error e

/-- Embeds `Thread.get_last_post`: same shape as `get_first_post` with
`order_by("-date")`. -/
def Thread.get_last_post (posts : List Post) : Except PyExn (Option Post) :=
  match qsIndexZero (maxByDate? posts) with
  | .ok p => .ok (some p)
  | .error .doesNotExist => .ok none
  | .error e => .error e

/-- Embeds `Thread.update_post_count`:
`self.post_count = self.post_set.exclude(censor=True, revision__isnull=False).count()`.
The two `exclude` kwargs are conjoined, so the excluded rows are those with
`censor = True` AND `revision` non-null. -/
def Thread.update_post_count (t : Thread) (posts : List Post) : Thread :=
  { t with post_count :=
      (posts.filter (fun p => !(p.censor && p.revision.isSome))).length }

/-- Embeds `Thread.update_last_update`: `self.last_update = self.get_last_post().date`.
Dereferencing `.date` on a `None` result would raise `AttributeError`; an
exception from `get_last_post` propagates. -/
def Thread.update_last_update (t : Thread) (posts : List Post) :
    Except PyExn Thread :=
  match Thread.get_last_post posts with
  | .error e => .error e
  | .ok none => .error .attributeError
  | .ok (some p) => .ok { t with last_update := some p.date }

/-- Embeds `Thread.update_first_post`: fetch the first post; if it is not `None`,
copy `post.user.username` / `post.user.email` into `starter` /
`starter_email`. Dereferencing a null `user` foreign key raises
`AttributeError`. -/
def Thread.update_first_post (t : Thread) (posts : List Post) :
    Except PyExn Thread :=
  match Thread.get_first_post posts with
  | .error e => .error e
  | .ok none => .ok t
  | .ok (some post) =>
    match post.user with
    | none => .error .attributeError
    | some u => .ok { t with starter := u.username, starter_email := u.email }

/-- Embeds `Thread.update_last_post`: as `update_first_post` but for the last post
and the `last_poster` / `last_poster_email` columns. -/
def Thread.update_last_post (t : Thread) (posts : List Post) :
    Except PyExn Thread :=
  match Thread.get_last_post posts with
  | .error e => .error e
  | .ok none => .ok t
  | .ok (some post) =>
    match post.user with
    | none => .error .attributeError
    | some u =>
      .ok { t with last_poster := u.username, last_poster_email := u.email }

/-- Embeds `Thread.update`: run the four recompute steps in order, then `self.save()`.
An exception aborts before `save()`, so nothing is persisted (`.error`).
`posts` is the thread's `post_set` at the time the recompute runs. -/
def Thread.update (t : Thread) (posts : List Post) : Except PyExn Thread := do
  let t := Thread.update_post_count t posts
  let t ← Thread.update_last_update t posts
  let t ← Thread.update_first_post t posts
  let t ← Thread.update_last_post t posts
  pure t

/-- Embeds `Thread.get_post_count(user, before)`:
`qs = self.post_set.filter(revision=None)`; staff also see censored posts,
others get `qs = qs.exclude(censor=True)`; then
`if before: qs.filter(date__lt=before.date)` — the filtered queryset is
built but never assigned, so `return qs.count()` ignores `before`. -/
def Thread.get_post_count (posts : List Post) (user : User)
    (before : Option Post) : Nat :=
  let qs := posts.filter (fun p => p.revision = none)
  let qs := if !user.is_staff then qs.filter (fun p => !p.censor) else qs
  let _discarded : List Post :=
    match before with
    | some b => qs.filter (fun p => p.date < b.date)
    | none => qs
  qs.length

/-- Embeds `Category.update_last_post`: collect the ids of the category's
non-private threads (`thread_set.exclude(private=True)`), take the most
recent post of any of those threads; on `IndexError` (no such post) `pass` —
`self.last_post` keeps its previous value and no save happens, otherwise the
field is set and saved. -/
def Category.update_last_post (c : Category) (threads : List Thread)
    (posts : List Post) : Category :=
  let thread_pks := (threads.filter (fun t => !t.priv)).map Thread.id
  match maxByDate? (posts.filter (fun (p : Post) => p.thread ∈ thread_pks)) with
  | none => c
  | some p => { c with last_post := some p }

/-- Embeds `Category.update_thread_count`:
`self.thread_count = self.thread_set.filter(private=False).count()`. -/
def Category.update_thread_count (c : Category) (threads : List Thread) :
    Category :=
  { c with thread_count := (threads.filter (fun t => t.priv = false)).length }

/-- Embeds `Category.update`: `update_last_post` then `update_thread_count`
(which saves). `threads` is the category's `thread_set`; `posts` holds the
post rows of those threads. -/
def Category.update (c : Category) (threads : List Thread)
    (posts : List Post) : Category :=
  Category.update_thread_count (Category.update_last_post c threads posts)
    threads

/-- The observable outcome of `Post.save`: the saved row plus the three
side effects of the notification block (`UserSettings.objects.get_or_create`,
`WatchList.objects.get_or_create`, `self.notify()`), which all sit in the
same `if` body. -/
structure SaveResult where
  post : Post
  usersettings_ensured : Bool
  watchlist_ensured : Bool
  notify_dispatched : Bool
deriving Repr, DecidableEq

/-- Embeds `Post.save`: `created = self.id is None`; if `self.previous is not None`
then `self.odate = self.previous.odate`, elif `created` then
`self.odate = datetime.now()`; then `super().save()` (on insert Django
assigns the primary key `newId` and the `auto_now_add` date); finally, if
`settings.SNAP_NOTIFY and created and self.user is not None`, ensure the
author's `UserSettings` and `WatchList` rows and dispatch `self.notify()`. -/
def Post.save (self : Post) (snap_notify : Bool) (now : Nat) (newId : Nat) :
    SaveResult :=
  let created := self.id.isNone
  let self :=
    match self.previous with
    | some prev => { self with odate := prev.odate }
    | none => if created then { self with odate := some now } else self
  let self :=
    if created then { self with id := some newId, date := now } else self
  if snap_notify && created && self.user.isSome then
    { post := self, usersettings_ensured := true, watchlist_ensured := true,
      notify_dispatched := true }
  else
    { post := self, usersettings_ensured := false, watchlist_ensured := false,
      notify_dispatched := false }

/-- Saving an existing row (`force_update` path): the stored row with the
saved row's id is overwritten. -/
def Post.replace_row (posts : List Post) (p : Post) : List Post :=
  posts.map (fun q => if q.id = p.id then p else q)

/-- The full post-save flow: `Post.save` runs, the row is inserted (when new)
or overwritten (when existing) in the thread's `post_set`, and the
`post_save` signal (`Post.signal`) runs `instance.thread.update()` over the
post-mutation row set. -/
def Post.save_flow (t : Thread) (posts : List Post) (self : Post)
    (snap_notify : Bool) (now : Nat) (newId : Nat) :
    Except PyExn (Thread × List Post × SaveResult) := do
  let r := Post.save self snap_notify now newId
  let posts :=
    if self.id.isNone then posts ++ [r.post] else Post.replace_row posts r.post
  let t ← Thread.update t posts
  pure (t, posts, r)

/-- The post-delete flow: the `pre_delete` signal (`Post.signal`) runs
`instance.thread.update()` while the row is still in the thread's
`post_set`; only then is the row removed. -/
def Post.delete_flow (t : Thread) (posts : List Post) (p : Post) :
    Except PyExn (Thread × List Post) := do
  let t ← Thread.update t posts
  pure (t, posts.erase p)

/-- The cascaded recompute triggered by a post mutation: the thread's
`update` runs first; its final `self.save()` fires `Thread.signal`, which
runs `instance.category.update()` over the category's threads (the updated
thread row among them) and their posts. -/
def recompute (t : Thread) (c : Category) (tposts : List Post)
    (otherThreads : List Thread) (allposts : List Post) :
    Except PyExn (Thread × Category) := do
  let t ← Thread.update t tposts
  let c := Category.update c (t :: otherThreads) allposts
  pure (t, c)

/-- Embeds `is_user_banned`: `user.id in settings.SNAP_BANNED_USERS`. The cached
set is passed explicitly. -/
def is_user_banned (snap_banned_users : List Nat) (user : User) : Bool :=
  user.pk ∈ snap_banned_users

/-- Embeds `is_ip_banned`: `ip in settings.SNAP_BANNED_IPS`. -/
def is_ip_banned (snap_banned_ips : List String) (ip : String) : Bool :=
  ip ∈ snap_banned_ips

/-- Embeds `UserBan.update_cache`: re-read every `user_id` in the `UserBan` table
and rebuild `settings.SNAP_BANNED_USERS` as a Python `set` of them
(`dedup` embeds the set construction; membership is all that is read). -/
def UserBan.update_cache (user_bans : List Nat) : List Nat :=
  user_bans.dedup

/-- Embeds `IPBan.update_cache`: same full reload for `settings.SNAP_BANNED_IPS`
from the `address` column. -/
def IPBan.update_cache (ip_bans : List String) : List String :=
  ip_bans.dedup

/-- The persisted ban tables together with the two process-wide cached sets. -/
structure BanState where
  user_bans : List Nat
  ip_bans : List String
  snap_banned_users : List Nat
  snap_banned_ips : List String
deriving Repr, DecidableEq

/-- Any create/update/delete of a `UserBan` row leaves the table in some new
state `user_bans`, and the `post_save`/`post_delete` signal then runs
`UserBan.update_cache`, swapping in the freshly reloaded set. -/
def UserBan.mutate_flow (s : BanState) (user_bans : List Nat) : BanState :=
  { s with
    user_bans := user_bans
    snap_banned_users := UserBan.update_cache user_bans }

/-- The `IPBan` counterpart of `UserBan.mutate_flow`. -/
def IPBan.mutate_flow (s : BanState) (ip_bans : List String) : BanState :=
  { s with
    ip_bans := ip_bans
    snap_banned_ips := IPBan.update_cache ip_bans }

/-!
Spec-side derivations (from the specification's words, for comparison with
the code-side recompute): the five thread aggregates as functions of the
thread's post rows "ordered by date".
-/

/-- Spec: `post_count` = count of posts where NOT (censored AND
is-a-revision-row). -/
def derived_post_count (posts : List Post) : Nat :=
  posts.countP (fun p => decide (¬(p.censor = true ∧ p.revision ≠ none)))

/-- Spec: `last_update` = date of the post with maximum date. -/
def derived_last_update (posts : List Post) : Option Nat :=
  (maxByDate? posts).map Post.date

/-- Spec: `starter`/`starter_email` = identity fields of the post with
minimum date. -/
def derived_starter? (posts : List Post) : Option (String × String) :=
  (minByDate? posts).bind (fun p => p.user.map (fun u => (u.username, u.email)))

/-- Spec: `last_poster`/`last_poster_email` = identity fields of the post
with maximum date. -/
def derived_last_poster? (posts : List Post) : Option (String × String) :=
  (maxByDate? posts).bind (fun p => p.user.map (fun u => (u.username, u.email)))

/-- Spec: the category's `last_post` = the most-recent-by-date post belonging
to any non-private thread of the category, absent when no such post exists. -/
def derived_category_last_post? (threads : List Thread) (posts : List Post) :
    Option Post :=
  maxByDate? (posts.filter (fun (p : Post) =>
    decide (p.thread ∈ (threads.filter (fun t => t.priv = false)).map Thread.id)))

/-!
Concrete rows used by witnesses and counterexamples.
-/

/-- An authenticated non-staff actor. -/
def uA : User :=
  { pk := 1, username := "alice", email := "alice@example.com",
    is_authenticated := true, is_superuser := false, is_staff := false }

/-- A second authenticated actor; member of `gEx`. -/
def uB : User :=
  { pk := 2, username := "bob", email := "bob@example.com",
    is_authenticated := true, is_superuser := false, is_staff := false }

/-- A staff actor. -/
def uC : User :=
  { pk := 3, username := "carol", email := "carol@example.com",
    is_authenticated := true, is_superuser := false, is_staff := true }

/-- An authenticated actor who is an admin of `gEx` but not a member. -/
def uD : User :=
  { pk := 5, username := "dave", email := "dave@example.com",
    is_authenticated := true, is_superuser := false, is_staff := false }

/-- A group whose member set is `{uB}` and whose admin set is `{uD}`. -/
def gEx : Group := { name := "writers", users := [2], admins := [5] }

/-- A category whose `post` permission is `CUSTOM` with group `gEx`. -/
def cCustom : Category :=
  { post_perms := CUSTOM, post_group := some gEx, thread_count := 0,
    last_post := none }

/-- An ordinary post by `uA` dated 900 in thread 7. -/
def p1 : Post :=
  { id := some 1, user := some uA, thread := 7, date := 900,
    odate := some 900, revision := none, previous := none, censor := false }

/-- A censored post that is not a revision row (`revision` unset): it still
counts toward `post_count`. -/
def p2 : Post :=
  { id := some 2, user := some uB, thread := 7, date := 1000,
    odate := some 1000, revision := none, previous := none, censor := true }

/-- A censored revision row (`revision` set): excluded from `post_count`. -/
def p3 : Post :=
  { id := some 3, user := some uC, thread := 7, date := 1100,
    odate := some 1100, revision := some 4, previous := none, censor := true }

/-- Thread 7 with blank aggregates. -/
def t0 : Thread :=
  { id := 7, category := 1, priv := false, post_count := 0, starter := "",
    starter_email := "", last_poster := "", last_poster_email := "",
    last_update := none }

/-- The result of `Thread.update t0 [p1, p2, p3]`. -/
def t01 : Thread :=
  { id := 7, category := 1, priv := false, post_count := 2,
    starter := "alice", starter_email := "alice@example.com",
    last_poster := "carol", last_poster_email := "carol@example.com",
    last_update := some 1100 }

/-- A lone post by `uA` dated 500 in thread 7, to be deleted. -/
def pd : Post :=
  { id := some 9, user := some uA, thread := 7, date := 500,
    odate := some 500, revision := none, previous := none, censor := false }

/-- The thread state left by deleting `pd` out of `[pd]`: the `pre_delete`
recompute still saw `pd`. -/
def tDel : Thread :=
  { id := 7, category := 1, priv := false, post_count := 1,
    starter := "alice", starter_email := "alice@example.com",
    last_poster := "alice", last_poster_email := "alice@example.com",
    last_update := some 500 }

/-- The result of `Thread.update t0 [p1]`. -/
def tR : Thread :=
  { id := 7, category := 1, priv := false, post_count := 1,
    starter := "alice", starter_email := "alice@example.com",
    last_poster := "alice", last_poster_email := "alice@example.com",
    last_update := some 900 }

/-- A category with blank aggregates owning thread 7. -/
def c0 : Category :=
  { post_perms := USERS, post_group := none, thread_count := 0,
    last_post := none }

/-- The result of `Category.update c0 [tR] [p1]`. -/
def cR : Category :=
  { post_perms := USERS, post_group := none, thread_count := 1,
    last_post := some p1 }

/-- A post by `uB` dated 600 in the private thread 8. -/
def pX : Post :=
  { id := some 11, user := some uB, thread := 8, date := 600,
    odate := some 600, revision := none, previous := none, censor := false }

/-- A private thread (id 8) in category 2. -/
def tPriv : Thread :=
  { id := 8, category := 2, priv := true, post_count := 1, starter := "bob",
    starter_email := "bob@example.com", last_poster := "bob",
    last_poster_email := "bob@example.com", last_update := some 600 }

/-- A category whose only thread is private and whose `last_post` still
points at `pX` from before the thread became private. -/
def cPriv : Category :=
  { post_perms := USERS, post_group := none, thread_count := 5,
    last_post := some pX }

/-- An unsaved edit row: `id` unset, `previous` pointing at the superseded
row (whose `odate` is 1100), author `uC`. -/
def editRow : Post :=
  { id := none, user := some uC, thread := 7, date := 0, odate := none,
    revision := none, previous := some ⟨some 1100⟩, censor := false }

/-- An unsaved first-in-chain row: `id` and `previous` both unset. -/
def freshRow : Post :=
  { id := none, user := some uA, thread := 7, date := 0, odate := none,
    revision := none, previous := none, censor := false }

/-- The `SaveResult` of saving `freshRow` at time 900 with new id 1. -/
def rSave : SaveResult :=
  { post := p1, usersettings_ensured := true, watchlist_ensured := true,
    notify_dispatched := true }

/-- A ban state with empty tables and empty caches. -/
def banState0 : BanState :=
  { user_bans := [], ip_bans := [], snap_banned_users := [],
    snap_banned_ips := [] }


/-!
Helper lemmas shared by the claim theorems.
-/

lemma Group.has_user_iff (g : Group) (u : User) :
    g.has_user u = true ↔ u.pk ∈ g.users := by
  simp [Group.has_user, List.length_eq_zero, List.filter_eq_nil_iff]

lemma Thread.update_nil (t : Thread) :
    Thread.update t [] = .error .indexError := rfl

lemma Thread.update_cons_ok (t : Thread) (a : Post) (l : List Post)
    (umin umax : User)
    (humin : (minFrom a l).user = some umin)
    (humax : (maxFrom a l).user = some umax) :
    Thread.update t (a :: l) = .ok { t with
      post_count :=
        ((a :: l).filter (fun p => !(p.censor && p.revision.isSome))).length
      last_update := some (maxFrom a l).date
      starter := umin.username
      starter_email := umin.email
      last_poster := umax.username
      last_poster_email := umax.email } := by
  simp [Thread.update, Thread.update_post_count, Thread.update_last_update,
    Thread.update_first_post, Thread.update_last_post, Thread.get_first_post,
    Thread.get_last_post, qsIndexZero, minByDate?, maxByDate?, humin, humax,
    bind, Except.bind, pure, Except.pure]

lemma Thread.update_ok_elim (t : Thread) (posts : List Post) (t' : Thread)
    (h : Thread.update t posts = .ok t') :
    ∃ a l umin umax, posts = a :: l ∧
      (minFrom a l).user = some umin ∧ (maxFrom a l).user = some umax ∧
      t' = { t with
        post_count :=
          ((a :: l).filter (fun p => !(p.censor && p.revision.isSome))).length
        last_update := some (maxFrom a l).date
        starter := umin.username
        starter_email := umin.email
        last_poster := umax.username
        last_poster_email := umax.email } := by
  cases posts with
  | nil => simp [Thread.update_nil] at h
  | cons a l =>
    cases humin : (minFrom a l).user with
    | none =>
      simp [Thread.update, Thread.update_post_count,
        Thread.update_last_update, Thread.update_first_post,
        Thread.get_first_post, Thread.get_last_post, qsIndexZero,
        minByDate?, maxByDate?, humin, bind, Except.bind] at h
    | some umin =>
      cases humax : (maxFrom a l).user with
      | none =>
        simp [Thread.update, Thread.update_post_count,
          Thread.update_last_update, Thread.update_first_post,
          Thread.update_last_post, Thread.get_first_post,
          Thread.get_last_post, qsIndexZero, minByDate?, maxByDate?,
          humin, humax, bind, Except.bind] at h
      | some umax =>
        rw [Thread.update_cons_ok t a l umin umax humin humax] at h
        exact ⟨a, l, umin, umax, rfl, humin, humax, (Except.ok.inj h).symm⟩

lemma post_count_pred (p : Post) :
    (decide (¬(p.censor = true ∧ p.revision ≠ none)))
      = !(p.censor && p.revision.isSome) := by
  cases hc : p.censor <;> cases hr : p.revision <;> simp [hc, hr]

lemma Thread.update_derives (t t' : Thread) (posts : List Post)
    (h : Thread.update t posts = .ok t') :
    t'.post_count = derived_post_count posts ∧
    t'.last_update = derived_last_update posts ∧
    derived_starter? posts = some (t'.starter, t'.starter_email) ∧
    derived_last_poster? posts = some (t'.last_poster, t'.last_poster_email)
    := by
  obtain ⟨a, l, umin, umax, rfl, humin, humax, rfl⟩ :=
    Thread.update_ok_elim t posts t' h
  refine ⟨?_, ?_, ?_, ?_⟩
  · simp [derived_post_count, List.countP_eq_length_filter]
    refine congrArg List.length (List.filter_congr ?_)
    intro p _
    cases hr : p.revision <;> simp [hr]
  · simp [derived_last_update, maxByDate?]
  · simp [derived_starter?, minByDate?, humin]
  · simp [derived_last_poster?, maxByDate?, humax]

lemma thread_update_idem (t t' : Thread) (posts : List Post)
    (h : Thread.update t posts = .ok t') :
    Thread.update t' posts = .ok t' := by
  obtain ⟨a, l, umin, umax, rfl, humin, humax, rfl⟩ :=
    Thread.update_ok_elim t posts t' h
  rw [Thread.update_cons_ok _ a l umin umax humin humax]

lemma Category.update_last_post_eq (c : Category) (threads : List Thread)
    (posts : List Post) :
    Category.update_last_post c threads posts =
      match maxByDate? (posts.filter (fun (p : Post) =>
          decide (p.thread ∈ (threads.filter (fun t => !t.priv)).map Thread.id)))
        with
      | none => c
      | some p => { c with last_post := some p } := rfl

lemma category_update_idem (c : Category) (threads : List Thread)
    (posts : List Post) :
    Category.update (Category.update c threads posts) threads posts
      = Category.update c threads posts := by
  cases hq : maxByDate? (posts.filter (fun (p : Post) =>
      decide (p.thread ∈ (threads.filter (fun t => !t.priv)).map Thread.id)))
    with
  | none =>
    simp [Category.update, Category.update_thread_count,
      Category.update_last_post_eq, hq]
  | some p =>
    simp [Category.update, Category.update_thread_count,
      Category.update_last_post_eq, hq]

lemma priv_filter_eq (threads : List Thread) :
    threads.filter (fun t => decide (t.priv = false))
      = threads.filter (fun t => !t.priv) :=
  List.filter_congr (fun t _ => by cases h : t.priv <;> simp [h])

lemma derived_category_last_post_eq (threads : List Thread)
    (posts : List Post) :
    derived_category_last_post? threads posts =
      maxByDate? (posts.filter (fun (p : Post) =>
        decide (p.thread ∈ (threads.filter (fun t => !t.priv)).map Thread.id)))
    := by
  unfold derived_category_last_post?
  rw [priv_filter_eq]

/-!
Claim theorems.
-/

/-- C1: after `Thread.update` completes, the thread's `post_count` equals
the number of posts in the thread that are not both censored and a revision
row. -/
theorem thread_post_count_after_update (t t' : Thread) (posts : List Post)
    (h : Thread.update t posts = .ok t') :
    t'.post_count = derived_post_count posts :=
  (Thread.update_derives t t' posts h).1

/-- C1 witness: a thread holding an ordinary post, a censored original that
was never superseded (counted), and a censored revision row (excluded):
`post_count = 2`. -/
theorem thread_post_count_after_update_witness :
    Thread.update t0 [p1, p2, p3] = .ok t01 ∧
    t01.post_count = derived_post_count [p1, p2, p3] :=
  ⟨by rfl, thread_post_count_after_update t0 t01 [p1, p2, p3] (by rfl)⟩

/-- C2: for a category whose `post` permission is `CUSTOM` with configured
group `g`, `can_post` grants exactly superusers and authenticated members of
`g.users`; admin-only membership does not appear in the condition. -/
theorem can_post_custom_group_iff (c : Category) (g : Group) (user : User)
    (hperm : c.post_perms = CUSTOM) (hg : c.post_group = some g) :
    c.can_post user = .ok true ↔
      (user.is_superuser = true ∨
        (user.is_authenticated = true ∧ user.pk ∈ g.users)) := by
  cases hsu : user.is_superuser <;> cases hau : user.is_authenticated <;>
    simp [Category.can_post, hperm, hg, CUSTOM, USERS, hsu, hau,
      Group.has_user_iff]

/-- C2 witness: in `cCustom` (group `gEx`), the member `uB` may post and the
admin-only `uD` may not. -/
theorem can_post_custom_group_iff_witness :
    cCustom.can_post uB = .ok true ∧ ¬cCustom.can_post uD = .ok true :=
  ⟨(can_post_custom_group_iff cCustom gEx uB rfl rfl).mpr (by decide),
   fun h => by
    have hm := (can_post_custom_group_iff cCustom gEx uD rfl rfl).mp h
    revert hm
    decide⟩

/-- C3 counterexample: deleting the only post of a thread. The `pre_delete`
signal recomputes the aggregates while the row is still present, so after
the deletion completes `post_count` is 1 although the thread's then-current
post set is empty: the aggregates do not reflect the post set without the
deleted row. -/
theorem delete_leaves_stale_aggregates :
    Post.delete_flow t0 [pd] pd = .ok (tDel, []) ∧
    tDel.post_count ≠ derived_post_count [] := ⟨by rfl, by decide⟩

/-- C3 amended: after a post create or update, the thread's five
denormalized fields equal the values derived from the post-mutation row set;
after a delete they equal the values derived from the pre-deletion row set
(the recompute signal runs `pre_delete`), hence they still include the
deleted row. -/
theorem aggregates_follow_scanned_rows
    (t1 : Thread) (posts1 : List Post) (self : Post) (sn : Bool)
    (now newId : Nat) (t1' : Thread) (posts1' : List Post) (r : SaveResult)
    (t2 : Thread) (posts2 : List Post) (p : Post) (t2' : Thread)
    (rest : List Post) :
    (Post.save_flow t1 posts1 self sn now newId = .ok (t1', posts1', r) →
      t1'.post_count = derived_post_count posts1' ∧
      t1'.last_update = derived_last_update posts1' ∧
      derived_starter? posts1' = some (t1'.starter, t1'.starter_email) ∧
      derived_last_poster? posts1'
        = some (t1'.last_poster, t1'.last_poster_email)) ∧
    (Post.delete_flow t2 posts2 p = .ok (t2', rest) →
      rest = posts2.erase p ∧
      t2'.post_count = derived_post_count posts2 ∧
      t2'.last_update = derived_last_update posts2 ∧
      derived_starter? posts2 = some (t2'.starter, t2'.starter_email) ∧
      derived_last_poster? posts2
        = some (t2'.last_poster, t2'.last_poster_email)) := by
  constructor
  · intro h
    cases hid : self.id with
    | none =>
      cases hu : Thread.update t1 (posts1 ++ [(Post.save self sn now newId).post]) with
      | error e =>
        simp [Post.save_flow, hid, hu, bind, Except.bind] at h
      | ok a =>
        simp [Post.save_flow, hid, hu, bind, Except.bind, pure,
          Except.pure] at h
        obtain ⟨rfl, rfl, rfl⟩ := h
        exact Thread.update_derives _ _ _ hu
    | some i =>
      cases hu : Thread.update t1 (Post.replace_row posts1 (Post.save self sn now newId).post) with
      | error e =>
        simp [Post.save_flow, hid, hu, bind, Except.bind] at h
      | ok a =>
        simp [Post.save_flow, hid, hu, bind, Except.bind, pure,
          Except.pure] at h
        obtain ⟨rfl, rfl, rfl⟩ := h
        exact Thread.update_derives _ _ _ hu
  · intro h
    cases hu : Thread.update t2 posts2 with
    | error e =>
      simp [Post.delete_flow, hu, bind, Except.bind] at h
    | ok a =>
      simp [Post.delete_flow, hu, bind, Except.bind, pure, Except.pure] at h
      obtain ⟨rfl, rfl⟩ := h
      have hd := Thread.update_derives _ _ _ hu
      exact ⟨rfl, hd.1, hd.2.1, hd.2.2.1, hd.2.2.2⟩

/-- C3 amended witness: creating `freshRow` in an empty thread leaves
aggregates matching `[p1]`; deleting `pd` out of `[pd]` leaves aggregates
matching `[pd]`, over the emptied row set. -/
theorem aggregates_follow_scanned_rows_witness :
    (tR.post_count = derived_post_count [p1] ∧
      tR.last_update = derived_last_update [p1] ∧
      derived_starter? [p1] = some (tR.starter, tR.starter_email) ∧
      derived_last_poster? [p1] = some (tR.last_poster, tR.last_poster_email))
    ∧
    (([] : List Post) = [pd].erase pd ∧
      tDel.post_count = derived_post_count [pd] ∧
      tDel.last_update = derived_last_update [pd] ∧
      derived_starter? [pd] = some (tDel.starter, tDel.starter_email) ∧
      derived_last_poster? [pd]
        = some (tDel.last_poster, tDel.last_poster_email)) :=
  ⟨(aggregates_follow_scanned_rows t0 [] freshRow true 900 1 tR [p1] rSave
      t0 [pd] pd tDel []).1 (by rfl),
   (aggregates_follow_scanned_rows t0 [] freshRow true 900 1 tR [p1] rSave
      t0 [pd] pd tDel []).2 (by rfl)⟩

/-- C4 counterexample: a category whose only thread is private. After
`Category.update`, `thread_count` is 0 as claimed, but `last_post` is not
cleared to `none`: the `IndexError` branch of `update_last_post` is `pass`,
so the field keeps its stale value `some pX`. -/
theorem all_private_category_keeps_last_post :
    (Category.update cPriv [tPriv] [pX]).thread_count = 0 ∧
    (Category.update cPriv [tPriv] [pX]).last_post = some pX ∧
    (Category.update cPriv [tPriv] [pX]).last_post ≠ none := by
  refine ⟨rfl, rfl, by decide⟩

/-- C4 amended: after `Category.update`, `thread_count` equals the number of
non-private threads; when a post in some non-private thread exists,
`last_post` is the most recent such post; when none exists, `last_post`
keeps its previous value (it is `none` only if it already was). -/
theorem category_update_correct (c : Category) (threads : List Thread)
    (posts : List Post) :
    (Category.update c threads posts).thread_count
      = threads.countP (fun t => decide (t.priv = false)) ∧
    (∀ p, derived_category_last_post? threads posts = some p →
      (Category.update c threads posts).last_post = some p) ∧
    (derived_category_last_post? threads posts = none →
      (Category.update c threads posts).last_post = c.last_post) := by
  refine ⟨?_, ?_, ?_⟩
  · simp [Category.update, Category.update_thread_count,
      List.countP_eq_length_filter]
  · intro p hp
    rw [derived_category_last_post_eq] at hp
    simp [Category.update, Category.update_thread_count,
      Category.update_last_post_eq, hp]
  · intro hp
    rw [derived_category_last_post_eq] at hp
    simp [Category.update, Category.update_thread_count,
      Category.update_last_post_eq, hp]

/-- C4 amended witness: the all-private category keeps its stale pointer;
a category with one public thread gets its most recent post. -/
theorem category_update_correct_witness :
    (derived_category_last_post? [tPriv] [pX] = none ∧
      (Category.update cPriv [tPriv] [pX]).last_post = cPriv.last_post) ∧
    (derived_category_last_post? [tR] [p1] = some p1 ∧
      (Category.update c0 [tR] [p1]).last_post = some p1) :=
  ⟨⟨by rfl, (category_update_correct cPriv [tPriv] [pX]).2.2 (by rfl)⟩,
   ⟨by rfl, (category_update_correct c0 [tR] [p1]).2.1 p1 (by rfl)⟩⟩

/-- C5: on a thread with zero posts the recompute does not complete and
leave `last_update` null; it raises. `order_by(...)[0]` on the empty post
set raises `IndexError`, which the `except DoesNotExist` clause of
`get_first_post` / `get_last_post` does not catch, so both lookups and
`Thread.update` itself propagate `IndexError` instead of returning an
absent result. -/
theorem empty_thread_recompute_raises :
    Thread.update t0 [] = .error .indexError ∧
    Thread.get_first_post [] = .error .indexError ∧
    Thread.get_last_post [] = .error .indexError := ⟨rfl, rfl, rfl⟩

/-- C6: saving an edit (a new row with `previous` set, author non-null,
notifications globally enabled) still counts as `created` (`self.id is
None`), so the notification block runs: the code emits the auto-watch,
settings get-or-create and notify intents on edits too, contradicting the
claim (and the source's own `TODO: don't notify on revision creation`). -/
theorem edit_save_emits_notification :
    editRow.previous.isSome = true ∧ editRow.user.isSome = true ∧
    (Post.save editRow true 1105 4).notify_dispatched = true ∧
    (Post.save editRow true 1105 4).watchlist_ensured = true ∧
    (Post.save editRow true 1105 4).usersettings_ensured = true :=
  ⟨rfl, rfl, rfl, rfl, rfl⟩

/-- C7: after any create/update/delete of a `UserBan` (resp. `IPBan`) row,
the cached set agrees with the persisted store; in particular
`is_user_banned` holds for `u` right after the refresh that follows
creating a ban row for `u`, and did not hold while the store had no row
for `u` (given the cache was in sync). -/
theorem ban_cache_sync (s : BanState) (store : List Nat)
    (ipstore : List String) (u : User) (ip : String)
    (hsync : s.snap_banned_users = UserBan.update_cache s.user_bans)
    (hnorow : u.pk ∉ s.user_bans) :
    (is_user_banned (UserBan.mutate_flow s store).snap_banned_users u = true ↔
      u.pk ∈ (UserBan.mutate_flow s store).user_bans) ∧
    (is_ip_banned (IPBan.mutate_flow s ipstore).snap_banned_ips ip = true ↔
      ip ∈ (IPBan.mutate_flow s ipstore).ip_bans) ∧
    (is_user_banned
        (UserBan.mutate_flow s (s.user_bans ++ [u.pk])).snap_banned_users u
      = true) ∧
    is_user_banned s.snap_banned_users u = false := by
  refine ⟨?_, ?_, ?_, ?_⟩
  · simp [is_user_banned, UserBan.mutate_flow, UserBan.update_cache]
  · simp [is_ip_banned, IPBan.mutate_flow, IPBan.update_cache]
  · simp [is_user_banned, UserBan.mutate_flow, UserBan.update_cache]
  · simp [is_user_banned, hsync, UserBan.update_cache, hnorow]

/-- C7 witness: starting from empty tables with empty (in-sync) caches,
banning `uA` makes `is_user_banned` true for `uA`; it was false before. -/
theorem ban_cache_sync_witness :
    (is_user_banned
        (UserBan.mutate_flow banState0 (banState0.user_bans ++ [uA.pk])).snap_banned_users
        uA = true) ∧
    is_user_banned banState0.snap_banned_users uA = false :=
  ⟨(ban_cache_sync banState0 [] [] uA "203.0.113.9" rfl (by decide)).2.2.1,
   (ban_cache_sync banState0 [] [] uA "203.0.113.9" rfl (by decide)).2.2.2⟩

/-- C8: `Post.save` sets `odate`: an edit (a row with `previous` set)
inherits the previous row's `odate`; a newly created first row with no
`previous` gets the creation time. -/
theorem post_save_odate (self : Post) (prev : PostRef) (sn : Bool)
    (now newId : Nat) :
    (self.previous = some prev →
      (Post.save self sn now newId).post.odate = prev.odate) ∧
    (self.previous = none → self.id = none →
      (Post.save self sn now newId).post.odate = some now) := by
  constructor
  · intro h
    simp [Post.save, h]
    split <;> split <;> simp
  · intro h hid
    simp [Post.save, h, hid]
    split <;> simp

/-- C8 witness: the edit row inherits `odate = 1100` from its previous row;
the fresh row gets `odate = 900`, its creation time. -/
theorem post_save_odate_witness :
    (Post.save editRow true 1105 4).post.odate = some 1100 ∧
    (Post.save freshRow true 900 1).post.odate = some 900 :=
  ⟨(post_save_odate editRow ⟨some 1100⟩ true 1105 4).1 rfl,
   (post_save_odate freshRow ⟨none⟩ true 900 1).2 rfl rfl⟩

/-- C9: the cascaded thread-then-category recompute is idempotent: if a run
completes with `(t', c')`, running it again from `(t', c')` with the same
rows yields `(t', c')` unchanged. -/
theorem recompute_idempotent (t : Thread) (c : Category)
    (tposts allposts : List Post) (others : List Thread) (t' : Thread)
    (c' : Category)
    (h : recompute t c tposts others allposts = .ok (t', c')) :
    recompute t' c' tposts others allposts = .ok (t', c') := by
  cases hu : Thread.update t tposts with
  | error e => simp [recompute, hu, bind, Except.bind] at h
  | ok a =>
    simp [recompute, hu, bind, Except.bind, pure, Except.pure] at h
    obtain ⟨rfl, rfl⟩ := h
    have h2 := thread_update_idem t a tposts hu
    simp [recompute, h2, bind, Except.bind, pure, Except.pure,
      category_update_idem]

/-- C9 witness: recomputing thread 7 (posts `[p1]`) and category 1 twice:
the second run reproduces `(tR, cR)` exactly. -/
theorem recompute_idempotent_witness :
    recompute tR cR [p1] [] [p1] = .ok (tR, cR) :=
  recompute_idempotent t0 c0 [p1] [p1] [] tR cR (by rfl)

/-- C10: `get_post_count` ignores its `before` argument: the
`qs.filter(date__lt=before.date)` result is discarded, so the count with
`before = some b` equals the count with `before = none` for every thread
post set and actor. -/
theorem get_post_count_ignores_before (posts : List Post) (user : User)
    (b : Post) :
    Thread.get_post_count posts user (some b)
      = Thread.get_post_count posts user none := rfl

end Snapboard
